import Mathlib

/-!
# sway/desktop/xdg_shell_v6.c

A shallow embedding of the xdg_shell_v6 surface adapter of sway.

* C structures become Lean structures holding the fields the file reads or
  writes.  A pointer to a foreign (wlroots) object is modelled by the
  contents of the object it points to at the time a handler runs, wrapped in
  `Option` when the code can see it as `NULL`.
* A `wl_listener` is modelled by one Boolean, `linked`: whether its link is
  currently inserted in the listener list of a signal.
* Every handler is a function `World → Option World`.  `none` stands for a
  `NULL` dereference or a use after free (undefined behaviour in C).
* Every call that leaves the file (View layer, arrangement, transactions,
  wlroots, libwayland, `free`) is appended to `World.calls`, in program
  order.
-/

namespace XdgShellV6

/-! ## Foreign (wlroots) data -/

/-- The C type `double`, kept as its 64-bit pattern; no arithmetic on it is modelled. -/
structure double where
  bits : Nat
  deriving DecidableEq, Repr

/-- The enum `wlr_xdg_surface_v6_role`. -/
inductive wlr_xdg_surface_v6_role where
  | WLR_XDG_SURFACE_V6_ROLE_NONE
  | WLR_XDG_SURFACE_V6_ROLE_TOPLEVEL
  | WLR_XDG_SURFACE_V6_ROLE_POPUP
  deriving DecidableEq, Repr

/-- The struct `wlr_xdg_toplevel_v6_state`: the size bounds (`uint32_t`) read by `wants_floating`. -/
structure wlr_xdg_toplevel_v6_state where
  min_width : Nat
  min_height : Nat
  max_width : Nat
  max_height : Nat
  deriving DecidableEq, Repr

/-- The struct `wlr_xdg_toplevel_v6`.  `parent` is the address of the parent
surface, `none` for a `NULL` pointer; `client_pending_fullscreen` is
`client_pending.fullscreen`. -/
structure wlr_xdg_toplevel_v6 where
  title : Option String
  app_id : Option String
  current : wlr_xdg_toplevel_v6_state
  client_pending_fullscreen : Bool
  parent : Option Nat
  deriving DecidableEq, Repr

/-- The struct `wlr_surface`: `current.width` and `current.height` (C `int`). -/
structure wlr_surface where
  current_width : Int
  current_height : Int
  deriving DecidableEq, Repr

/-- The struct `wlr_box` (only the extent is read here). -/
structure wlr_box where
  x : Int
  y : Int
  width : Int
  height : Int
  deriving DecidableEq, Repr

/-- The struct `wlr_xdg_surface_v6`.  `toplevel` is the `toplevel` member of
the role union, `none` when that pointer is `NULL`. -/
structure wlr_xdg_surface_v6 where
  role : wlr_xdg_surface_v6_role
  toplevel : Option wlr_xdg_toplevel_v6
  geometry : wlr_box
  surface : wlr_surface
  mapped : Bool
  configure_serial : Nat
  deriving DecidableEq, Repr

/-- The struct `wlr_xdg_popup_v6`: `base` is the popup's own xdg surface. -/
structure wlr_xdg_popup_v6 where
  base : wlr_xdg_surface_v6
  deriving DecidableEq, Repr

/-- The struct `wlr_xdg_toplevel_v6_set_fullscreen_event`. -/
structure wlr_xdg_toplevel_v6_set_fullscreen_event where
  fullscreen : Bool
  deriving DecidableEq, Repr

/-! ## The tree layer (declared in sway/tree, not part of this file) -/

/-- Modelled from the spec: the enum `sway_view_type` of sway/tree/view.h is
not under src/.  The spec describes a View as polymorphic over a small closed
set of protocol-adapter variants; this adapter's is `SWAY_VIEW_XDG_SHELL_V6`. -/
inductive sway_view_type where
  | SWAY_VIEW_XDG_SHELL_V6
  | SWAY_VIEW_XDG_SHELL
  | SWAY_VIEW_XWAYLAND
  deriving DecidableEq, Repr

/-- Modelled from the spec: the enum `sway_view_prop` of sway/tree/view.h is
not under src/.  The code names `VIEW_PROP_TITLE` and `VIEW_PROP_APP_ID`; every
other property falls in the `default` arm. -/
inductive sway_view_prop where
  | VIEW_PROP_TITLE
  | VIEW_PROP_APP_ID
  | VIEW_PROP_OTHER (n : Nat)
  deriving DecidableEq, Repr

/-- Modelled from the spec: the enum `sway_container_type` of
sway/tree/container.h is not under src/.  The arrangement scopes of the spec
are parent container, workspace and output. -/
inductive sway_container_type where
  | C_ROOT
  | C_OUTPUT
  | C_WORKSPACE
  | C_CONTAINER
  | C_VIEW
  deriving DecidableEq, Repr

/-- A value of type `struct sway_container *`: `NULL`, or a container with its
type, the length of its `instructions` list and its `parent` pointer. -/
inductive container_ptr where
  | NULL
  | ptr (type : sway_container_type) (instructions_length : Nat) (parent : container_ptr)
  deriving DecidableEq, Repr

/-- Modelled from the spec: `container_parent` of sway/tree/layout.c is not
under src/.  It yields the nearest proper ancestor of the given type (the
"owning" workspace or output of the spec), `NULL` when there is none. -/
def container_parent : container_ptr → sway_container_type → container_ptr
  | .NULL, _ => .NULL
  | .ptr _ _ .NULL, _ => .NULL
  | .ptr _ _ (.ptr t n p), ty =>
      if t = ty then .ptr t n p else container_parent (.ptr t n p) ty

/-- The struct `sway_view`, with the fields this file touches.
`wlr_xdg_surface_v6` is the surface-handle reference, `surface` the live
surface, `swayc` the tree position. -/
structure sway_view where
  type : sway_view_type
  wlr_xdg_surface_v6 : Option wlr_xdg_surface_v6
  surface : Option wlr_surface
  swayc : container_ptr
  natural_width : Int
  natural_height : Int
  is_fullscreen : Bool
  deriving DecidableEq, Repr

/-! ## The adapter structures -/

/-- A `wl_listener`: `linked` holds while its link sits in a signal's list. -/
structure wl_listener where
  linked : Bool
  deriving DecidableEq, Repr

/-- The struct `sway_xdg_shell_v6_view`: the View and its six listeners. -/
structure sway_xdg_shell_v6_view where
  view : sway_view
  commit : wl_listener
  new_popup : wl_listener
  request_fullscreen : wl_listener
  map : wl_listener
  unmap : wl_listener
  destroy : wl_listener
  deriving DecidableEq, Repr

/-- The value `child->impl` of a `sway_view_child`: this file's `popup_impl`,
another implementation, or `NULL`. -/
inductive sway_view_child_impl where
  | popup_impl
  | other_impl (n : Nat)
  deriving DecidableEq, Repr

/-- The struct `sway_xdg_popup_v6`.  `child_impl` and `child_view` are
`child.impl` and `child.view` (the address of the root View); a pointer field
is `none` while it is `NULL`, as `calloc` leaves it. -/
structure sway_xdg_popup_v6 where
  child_impl : Option sway_view_child_impl
  child_view : Option Nat
  wlr_xdg_surface_v6 : Option wlr_xdg_surface_v6
  new_popup : wl_listener
  destroy : wl_listener
  deriving DecidableEq, Repr

/-! ## Calls that leave the file -/

/-- Names of the six listeners of a toplevel adapter. -/
inductive view_listener where
  | destroy | map | unmap | commit | new_popup | request_fullscreen
  deriving DecidableEq, Repr

/-- Names of the two listeners of a popup adapter. -/
inductive popup_listener where
  | new_popup | destroy
  deriving DecidableEq, Repr

/-- A listener link: one of the toplevel adapter, or one of the popup at an address. -/
inductive link where
  | view (l : view_listener)
  | popup (addr : Nat) (l : popup_listener)
  deriving DecidableEq, Repr

/-- The signals of the foreign surface that the file subscribes to. -/
inductive signal where
  | xdg_surface_map
  | xdg_surface_unmap
  | xdg_surface_destroy
  | xdg_surface_new_popup
  | surface_commit
  | toplevel_request_fullscreen
  deriving DecidableEq, Repr

/-- One call out of the file, with the arguments the callee can observe.
`view_map` and `view_destroy` carry the contents of the View at the call; the
wlroots commands carry the surface pointer they are handed. -/
inductive Call where
  | view_init (type : sway_view_type)
  | view_map (view : sway_view) (surface : wlr_surface)
  | view_unmap
  | view_destroy (view : sway_view)
  | view_set_fullscreen (fullscreen : Bool)
  | view_update_title (force : Bool)
  | view_damage_from
  | view_child_init (addr : Nat) (impl : sway_view_child_impl) (view : Option Nat)
  | view_child_destroy (addr : Nat)
  | arrange_and_commit (scope : container_ptr)
  | transaction_notify_view_ready (serial : Nat)
  | wl_signal_add (sig : signal) (l : link)
  | wl_list_remove (l : link)
  | wlr_xdg_surface_v6_ping (surface : Option wlr_xdg_surface_v6)
  | wlr_xdg_toplevel_v6_set_size (surface : Option wlr_xdg_surface_v6) (width height : Int)
  | wlr_xdg_toplevel_v6_set_activated (surface : Option wlr_xdg_surface_v6) (activated : Bool)
  | wlr_xdg_toplevel_v6_set_maximized (surface : Option wlr_xdg_surface_v6) (maximized : Bool)
  | wlr_xdg_toplevel_v6_set_fullscreen (surface : Option wlr_xdg_surface_v6) (fullscreen : Bool)
  | wlr_xdg_surface_v6_for_each_surface (surface : Option wlr_xdg_surface_v6)
  | wlr_xdg_surface_v6_send_close (surface : Option wlr_xdg_surface_v6)
  | wlr_xdg_popup_v6_unconstrain_from_box (addr : Nat) (output : container_ptr)
  | free_popup (addr : Nat)
  | free_view
  deriving DecidableEq, Repr

/-- The memory the handlers work on: one toplevel adapter (at address
`view_addr`), the live popup adapters by address, and the calls made so far. -/
structure World where
  xdg_shell_v6_view : sway_xdg_shell_v6_view
  view_addr : Nat
  popups : Nat → Option sway_xdg_popup_v6
  calls : List Call

/-- Append one outgoing call to the record. -/
def World.call (w : World) (c : Call) : World :=
  { w with calls := w.calls ++ [c] }

/-- Replace the View embedded in the toplevel adapter. -/
def World.setView (w : World) (v : sway_view) : World :=
  { w with xdg_shell_v6_view := { w.xdg_shell_v6_view with view := v } }

/-! ## libwayland listener lists -/

/-- Read the `linked` state of one of the adapter's listeners. -/
def sway_xdg_shell_v6_view.listener (a : sway_xdg_shell_v6_view) : view_listener → wl_listener
  | .destroy => a.destroy
  | .map => a.map
  | .unmap => a.unmap
  | .commit => a.commit
  | .new_popup => a.new_popup
  | .request_fullscreen => a.request_fullscreen

/-- Overwrite one of the adapter's listeners. -/
def sway_xdg_shell_v6_view.setListener (a : sway_xdg_shell_v6_view) (l : view_listener)
    (x : wl_listener) : sway_xdg_shell_v6_view :=
  match l with
  | .destroy => { a with destroy := x }
  | .map => { a with map := x }
  | .unmap => { a with unmap := x }
  | .commit => { a with commit := x }
  | .new_popup => { a with new_popup := x }
  | .request_fullscreen => { a with request_fullscreen := x }

/-- The call `wl_signal_add(sig, &xdg_shell_v6_view->l)`: the link is inserted. -/
def view_signal_add (w : World) (sig : signal) (l : view_listener) : World :=
  { (w.call (.wl_signal_add sig (.view l))) with
    xdg_shell_v6_view := w.xdg_shell_v6_view.setListener l ⟨true⟩ }

/-- The call `wl_list_remove(&xdg_shell_v6_view->l.link)`.  libwayland writes
through `link.prev` and `link.next`, which are `NULL` for a link that is not
in a list (never inserted, or already removed): that case is `none`. -/
def view_list_remove (w : World) (l : view_listener) : Option World :=
  if (w.xdg_shell_v6_view.listener l).linked then
    some { (w.call (.wl_list_remove (.view l))) with
           xdg_shell_v6_view := w.xdg_shell_v6_view.setListener l ⟨false⟩ }
  else none

/-- The set of listeners of the toplevel adapter that are currently linked,
as the list of their names in declaration order of `view_listener`. -/
def subscriptions (a : sway_xdg_shell_v6_view) : List view_listener :=
  [view_listener.destroy, .map, .unmap, .commit, .new_popup, .request_fullscreen].filter
    (fun l => (a.listener l).linked)

/-! ## Collaborators of the View layer -/

/-- Modelled from the spec: `sway_assert` of log.h is not under src/.  The
spec calls it a defensive, non-fatal assertion: it logs when the condition
fails and evaluates to the condition. -/
def sway_assert (cond : Bool) : Bool := cond

/-- Modelled from the spec: `view_map` of sway/tree/view.c is not under src/.
It attaches the resolved surface to the View and gives the View its tree
position; `placed` is the container the tree layer creates for it. -/
def view_map (w : World) (surface : wlr_surface) (placed : container_ptr) : World :=
  let v := w.xdg_shell_v6_view.view
  (w.call (.view_map v surface)).setView { v with surface := some surface, swayc := placed }

/-- Modelled from the spec: `view_unmap` of sway/tree/view.c is not under
src/.  The View stops holding a live surface and loses its tree position. -/
def view_unmap (w : World) : World :=
  let v := w.xdg_shell_v6_view.view
  (w.call .view_unmap).setView { v with surface := none, swayc := .NULL }

/-- Modelled from the spec: `view_set_fullscreen` of sway/tree/view.c is not
under src/.  It applies the requested fullscreen flag to the View. -/
def view_set_fullscreen (w : World) (fullscreen : Bool) : World :=
  let v := w.xdg_shell_v6_view.view
  (w.call (.view_set_fullscreen fullscreen)).setView { v with is_fullscreen := fullscreen }

/-- Modelled from the spec: `view_destroy` of sway/tree/view.c is not under
src/.  It detaches and frees the View tree node; only the call is recorded. -/
def view_destroy (w : World) : World :=
  w.call (.view_destroy w.xdg_shell_v6_view.view)

/-! ## Popups (lines 15-85) -/

/-- Overwrite (or, with `none`, release) the popup adapter at an address. -/
def World.setPopup (w : World) (addr : Nat) (p : Option sway_xdg_popup_v6) : World :=
  { w with popups := Function.update w.popups addr p }

/-- The function `popup_destroy` (lines 17-26), on the child at `child`. -/
def popup_destroy (w : World) (child : Nat) : Option World :=
  match w.popups child with
  | none => none
  | some popup =>
    if !sway_assert (popup.child_impl = some .popup_impl) then some w
    else if !popup.new_popup.linked then none
    else
      let w1 := (w.call (.wl_list_remove (.popup child .new_popup))).setPopup child
        (some { popup with new_popup := ⟨false⟩ })
      if !popup.destroy.linked then none
      else
        let w2 := (w1.call (.wl_list_remove (.popup child .destroy))).setPopup child
          (some { popup with new_popup := ⟨false⟩, destroy := ⟨false⟩ })
        some ((w2.call (.free_popup child)).setPopup child none)

/-- Modelled from the spec: `view_child_init` of sway/tree/view.c is not under
src/.  It binds the child to its implementation and to the root View. -/
def view_child_init (w : World) (child : Nat) (impl : sway_view_child_impl)
    (view : Option Nat) : Option World :=
  match w.popups child with
  | none => none
  | some popup =>
    some ((w.call (.view_child_init child impl view)).setPopup child
      (some { popup with child_impl := some impl, child_view := view }))

/-- Modelled from the spec: `view_child_destroy` of sway/tree/view.c is not
under src/.  It hands the child to the `destroy` entry of its implementation,
which for `popup_impl` is `popup_destroy`. -/
def view_child_destroy (w : World) (child : Nat) : Option World :=
  match w.popups child with
  | none => none
  | some popup =>
    match popup.child_impl with
    | some .popup_impl => popup_destroy (w.call (.view_child_destroy child)) child
    | _ => some (w.call (.view_child_destroy child))

/-- The function `popup_unconstrain` (lines 47-63).  The box handed to
wlroots is computed from `double` coordinates and is not modelled; the call is
recorded with the output container it is computed from. -/
def popup_unconstrain (w : World) (popup : Nat) : Option World :=
  match w.popups popup with
  | none => none
  | some p =>
    match p.child_view, p.wlr_xdg_surface_v6 with
    | some view, some _ =>
      if view ≠ w.view_addr then none
      else
        match container_parent w.xdg_shell_v6_view.view.swayc .C_OUTPUT with
        | .NULL => none
        | .ptr t n par =>
          some (w.call (.wlr_xdg_popup_v6_unconstrain_from_box popup (.ptr t n par)))
    | _, _ => none

/-- The function `popup_create` (lines 65-85).  `mem` is what `calloc`
returns: `none` for `NULL`, else the address of zeroed memory.  The result is
the returned pointer and the new memory. -/
def popup_create (w : World) (mem : Option Nat) (wlr_popup : wlr_xdg_popup_v6)
    (view : Option Nat) : Option (Option Nat × World) :=
  let xdg_surface := wlr_popup.base
  match mem with
  | none => some (none, w)
  | some popup =>
    let w0 := w.setPopup popup
      (some { child_impl := none, child_view := none, wlr_xdg_surface_v6 := none,
              new_popup := ⟨false⟩, destroy := ⟨false⟩ })
    match view_child_init w0 popup .popup_impl view with
    | none => none
    | some w1 =>
      match w1.popups popup with
      | none => none
      | some p =>
        let w2 := w1.setPopup popup (some { p with wlr_xdg_surface_v6 := some xdg_surface })
        let w3 := (w2.call (.wl_signal_add .xdg_surface_new_popup (.popup popup .new_popup))).setPopup
          popup (some { p with wlr_xdg_surface_v6 := some xdg_surface, new_popup := ⟨true⟩ })
        let w4 := (w3.call (.wl_signal_add .xdg_surface_destroy (.popup popup .destroy))).setPopup
          popup (some { p with wlr_xdg_surface_v6 := some xdg_surface, new_popup := ⟨true⟩,
                               destroy := ⟨true⟩ })
        match popup_unconstrain w4 popup with
        | none => none
        | some w5 => some (some popup, w5)

/-- The function `popup_handle_new_popup` (lines 35-40), for the listener of
the popup at `popup`. -/
def popup_handle_new_popup (w : World) (popup : Nat) (mem : Option Nat)
    (wlr_popup : wlr_xdg_popup_v6) : Option World :=
  match w.popups popup with
  | none => none
  | some p => (popup_create w mem wlr_popup p.child_view).map Prod.snd

/-- The function `popup_handle_destroy` (lines 42-45). -/
def popup_handle_destroy (w : World) (popup : Nat) : Option World :=
  view_child_destroy w popup

/-! ## The capability queries (lines 88-196) -/

/-- The function `xdg_shell_v6_view_from_view` (lines 88-95): `none` is `NULL`. -/
def xdg_shell_v6_view_from_view (view : sway_view) : Option sway_view :=
  if !sway_assert (view.type = .SWAY_VIEW_XDG_SHELL_V6) then none else some view

/-- The function `get_string_prop` (lines 97-109).  The outer `Option` is the
outcome of the call, the inner one the returned string pointer. -/
def get_string_prop (view : sway_view) (prop : sway_view_prop) : Option (Option String) :=
  if xdg_shell_v6_view_from_view view = none then some none
  else
    match prop with
    | .VIEW_PROP_TITLE =>
      match view.wlr_xdg_surface_v6 with
      | none => none
      | some s => match s.toplevel with
        | none => none
        | some t => some t.title
    | .VIEW_PROP_APP_ID =>
      match view.wlr_xdg_surface_v6 with
      | none => none
      | some s => match s.toplevel with
        | none => none
        | some t => some t.app_id
    | _ => some none

/-- The function `configure` (lines 111-120).  `serial` is the value
`wlr_xdg_toplevel_v6_set_size` returns.  Result: returned serial and calls made. -/
def configure (serial : Nat) (view : sway_view) (_lx _ly : double) (width height : Int) :
    Option (Nat × List Call) :=
  if xdg_shell_v6_view_from_view view = none then some (0, [])
  else some (serial, [.wlr_xdg_toplevel_v6_set_size view.wlr_xdg_surface_v6 width height])

/-- The function `set_activated` (lines 122-130). -/
def set_activated (view : sway_view) (activated : Bool) : Option (List Call) :=
  if xdg_shell_v6_view_from_view view = none then some []
  else
    match view.wlr_xdg_surface_v6 with
    | none => none
    | some surface =>
      if surface.role = .WLR_XDG_SURFACE_V6_ROLE_TOPLEVEL then
        some [.wlr_xdg_toplevel_v6_set_activated (some surface) activated]
      else some []

/-- The function `set_tiled` (lines 132-138). -/
def set_tiled (view : sway_view) (tiled : Bool) : Option (List Call) :=
  if xdg_shell_v6_view_from_view view = none then some []
  else some [.wlr_xdg_toplevel_v6_set_maximized view.wlr_xdg_surface_v6 tiled]

/-- The function `set_fullscreen` (lines 140-146). -/
def set_fullscreen (view : sway_view) (fullscreen : Bool) : Option (List Call) :=
  if xdg_shell_v6_view_from_view view = none then some []
  else some [.wlr_xdg_toplevel_v6_set_fullscreen view.wlr_xdg_surface_v6 fullscreen]

/-- The function `wants_floating` (lines 148-156). -/
def wants_floating (view : sway_view) : Option Bool :=
  match view.wlr_xdg_surface_v6 with
  | none => none
  | some s =>
    match s.toplevel with
    | none => none
    | some toplevel =>
      let state := toplevel.current
      some ((state.min_width != 0 && state.min_height != 0
          && state.min_width == state.max_width
          && state.min_height == state.max_height)
        || toplevel.parent.isSome)

/-- The function `for_each_surface` (lines 158-165); the iterator runs inside wlroots. -/
def for_each_surface (view : sway_view) : Option (List Call) :=
  if xdg_shell_v6_view_from_view view = none then some []
  else some [.wlr_xdg_surface_v6_for_each_surface view.wlr_xdg_surface_v6]

/-- The function `_close` (lines 167-175). -/
def _close (view : sway_view) : Option (List Call) :=
  if xdg_shell_v6_view_from_view view = none then some []
  else
    match view.wlr_xdg_surface_v6 with
    | none => none
    | some surface =>
      if surface.role = .WLR_XDG_SURFACE_V6_ROLE_TOPLEVEL then
        some [.wlr_xdg_surface_v6_send_close (some surface)]
      else some []

/-- The function `destroy` (lines 177-184). -/
def destroy (view : sway_view) : Option (List Call) :=
  if xdg_shell_v6_view_from_view view = none then some []
  else some [.free_view]

/-! ## The toplevel event handlers (lines 198-349) -/

/-- The function `handle_commit` (lines 198-213). -/
def handle_commit (w : World) : Option World :=
  let view := w.xdg_shell_v6_view.view
  let xdg_surface_v6 := view.wlr_xdg_surface_v6
  match view.swayc with
  | .NULL => some w
  | .ptr _ instructions_length _ =>
    let notified : Option World :=
      if instructions_length ≠ 0 then
        match xdg_surface_v6 with
        | none => none
        | some s => some (w.call (.transaction_notify_view_ready s.configure_serial))
      else some w
    match notified with
    | none => none
    | some w1 => some ((w1.call (.view_update_title false)).call .view_damage_from)

/-- The function `handle_new_popup` (lines 215-220). -/
def handle_new_popup (w : World) (mem : Option Nat) (wlr_popup : wlr_xdg_popup_v6) :
    Option World :=
  (popup_create w mem wlr_popup (some w.view_addr)).map Prod.snd

/-- The function `handle_request_fullscreen` (lines 222-243). -/
def handle_request_fullscreen (w : World) (e : wlr_xdg_toplevel_v6_set_fullscreen_event) :
    Option World :=
  match w.xdg_shell_v6_view.view.wlr_xdg_surface_v6 with
  | none => none
  | some xdg_surface =>
    if !sway_assert (xdg_surface.role = .WLR_XDG_SURFACE_V6_ROLE_TOPLEVEL) then some w
    else if !xdg_surface.mapped then some w
    else
      let w1 := view_set_fullscreen w e.fullscreen
      let output := container_parent w1.xdg_shell_v6_view.view.swayc .C_OUTPUT
      some (w1.call (.arrange_and_commit output))

/-- The function `handle_unmap` (lines 245-259). -/
def handle_unmap (w : World) : Option World :=
  let view := w.xdg_shell_v6_view.view
  if !sway_assert view.surface.isSome then some w
  else
    let w1 := view_unmap w
    match view_list_remove w1 .commit with
    | none => none
    | some w2 =>
      match view_list_remove w2 .new_popup with
      | none => none
      | some w3 => view_list_remove w3 .request_fullscreen

/-- The function `handle_map` (lines 261-295).  `placed` is the container that
`view_map` creates for the View. -/
def handle_map (w : World) (placed : container_ptr) : Option World :=
  let view := w.xdg_shell_v6_view.view
  match view.wlr_xdg_surface_v6 with
  | none => none
  | some xdg_surface =>
    let geom : sway_view :=
      { view with natural_width := xdg_surface.geometry.width,
                  natural_height := xdg_surface.geometry.height }
    let sized : sway_view :=
      if geom.natural_width = 0 ∧ geom.natural_height = 0 then
        { geom with natural_width := xdg_surface.surface.current_width,
                    natural_height := xdg_surface.surface.current_height }
      else geom
    let w1 := view_map (w.setView sized) xdg_surface.surface placed
    match xdg_surface.toplevel with
    | none => none
    | some toplevel =>
      let arranged : Option World :=
        if toplevel.client_pending_fullscreen then
          let w2 := view_set_fullscreen w1 true
          let ws := container_parent w2.xdg_shell_v6_view.view.swayc .C_WORKSPACE
          some (w2.call (.arrange_and_commit ws))
        else
          match w1.xdg_shell_v6_view.view.swayc with
          | .NULL => none
          | .ptr _ _ parent => some (w1.call (.arrange_and_commit parent))
      match arranged with
      | none => none
      | some w3 =>
        let w4 := view_signal_add w3 .surface_commit .commit
        let w5 := view_signal_add w4 .xdg_surface_new_popup .new_popup
        some (view_signal_add w5 .toplevel_request_fullscreen .request_fullscreen)

/-- The function `handle_destroy` (lines 297-306). -/
def handle_destroy (w : World) : Option World :=
  match view_list_remove w .destroy with
  | none => none
  | some w1 =>
    match view_list_remove w1 .map with
    | none => none
    | some w2 =>
      match view_list_remove w2 .unmap with
      | none => none
      | some w3 =>
        let view := w3.xdg_shell_v6_view.view
        some (view_destroy (w3.setView { view with wlr_xdg_surface_v6 := none }))

/-- What `handle_xdg_shell_v6_surface` leaves behind: no adapter (a popup
surface, or `calloc` failed), or a new adapter. -/
inductive Announced where
  | ignored (calls : List Call)
  | created (w : World)

/-- Modelled from the spec: `view_init` of sway/tree/view.c is not under src/.
It records the protocol variant (and the capability table) in the View. -/
def view_init (w : World) (type : sway_view_type) : World :=
  (w.call (.view_init type)).setView { w.xdg_shell_v6_view.view with type := type }

/-- The function `handle_xdg_shell_v6_surface` (lines 313-349).  `mem` is what
`calloc` returns; the zeroed View has the first enumerator as type, no handle,
no live surface, no tree position and unlinked listeners.  The store to the
foreign `xdg_surface->data` is not kept. -/
def handle_xdg_shell_v6_surface (mem : Option Nat) (xdg_surface : wlr_xdg_surface_v6) :
    Option Announced :=
  if xdg_surface.role = .WLR_XDG_SURFACE_V6_ROLE_POPUP then some (.ignored [])
  else
    match xdg_surface.toplevel with
    | none => none
    | some _ =>
      let calls := [Call.wlr_xdg_surface_v6_ping (some xdg_surface)]
      match mem with
      | none => some (.ignored calls)
      | some addr =>
        let zeroed : sway_xdg_shell_v6_view :=
          { view := { type := .SWAY_VIEW_XDG_SHELL_V6, wlr_xdg_surface_v6 := none,
                      surface := none, swayc := .NULL, natural_width := 0,
                      natural_height := 0, is_fullscreen := false },
            commit := ⟨false⟩, new_popup := ⟨false⟩, request_fullscreen := ⟨false⟩,
            map := ⟨false⟩, unmap := ⟨false⟩, destroy := ⟨false⟩ }
        let w0 : World :=
          { xdg_shell_v6_view := zeroed, view_addr := addr, popups := fun _ => none,
            calls := calls }
        let w1 := view_init w0 .SWAY_VIEW_XDG_SHELL_V6
        let w2 := w1.setView { w1.xdg_shell_v6_view.view with
                               wlr_xdg_surface_v6 := some xdg_surface }
        let w3 := view_signal_add w2 .xdg_surface_map .map
        let w4 := view_signal_add w3 .xdg_surface_unmap .unmap
        some (.created (view_signal_add w4 .xdg_surface_destroy .destroy))

/-! ## Event delivery -/

/-- An event of the foreign layer on the toplevel surface, with its payload
(and, for `map`, the container the tree layer places the View in). -/
inductive Event where
  | map (placed : container_ptr)
  | unmap
  | destroy
  | commit
  | new_popup (mem : Option Nat) (wlr_popup : wlr_xdg_popup_v6)
  | request_fullscreen (e : wlr_xdg_toplevel_v6_set_fullscreen_event)

/-- The listener an event of the toplevel surface is routed to. -/
def Event.listener : Event → view_listener
  | .map _ => .map
  | .unmap => .unmap
  | .destroy => .destroy
  | .commit => .commit
  | .new_popup _ _ => .new_popup
  | .request_fullscreen _ => .request_fullscreen

/-- Emission of a signal (`wl_signal_emit`): the handler runs when, and only
when, its listener is linked. -/
def deliver (w : World) (ev : Event) : Option World :=
  if (w.xdg_shell_v6_view.listener ev.listener).linked then
    match ev with
    | .map placed => handle_map w placed
    | .unmap => handle_unmap w
    | .destroy => handle_destroy w
    | .commit => handle_commit w
    | .new_popup mem wlr_popup => handle_new_popup w mem wlr_popup
    | .request_fullscreen e => handle_request_fullscreen w e
  else some w

/-- Deliver a sequence of events; the result lists the subscription set
observed after each one, and the final memory. -/
def lifetime : World → List Event → Option (List (List view_listener) × World)
  | w, [] => some ([], w)
  | w, ev :: rest =>
    match deliver w ev with
    | none => none
    | some w1 =>
      match lifetime w1 rest with
      | none => none
      | some (snaps, w2) => some (subscriptions w1.xdg_shell_v6_view :: snaps, w2)

/-! ## Example data -/

/-- A toplevel without size bounds and without parent. -/
def exampleToplevel : wlr_xdg_toplevel_v6 :=
  { title := some "term", app_id := some "foot", current := ⟨0, 0, 0, 0⟩,
    client_pending_fullscreen := false, parent := none }

/-- A mapped toplevel surface with no advertised geometry and an 800x600 buffer. -/
def exampleSurface : wlr_xdg_surface_v6 :=
  { role := .WLR_XDG_SURFACE_V6_ROLE_TOPLEVEL, toplevel := some exampleToplevel,
    geometry := ⟨0, 0, 0, 0⟩, surface := ⟨800, 600⟩, mapped := true, configure_serial := 7 }

/-- A view container with one pending instruction, below a workspace, an output and the root. -/
def exampleContainer : container_ptr :=
  .ptr .C_VIEW 1 (.ptr .C_WORKSPACE 0 (.ptr .C_OUTPUT 0 (.ptr .C_ROOT 0 .NULL)))

/-- The adapter right after `handle_xdg_shell_v6_surface` announced `exampleSurface`. -/
def exampleCreated : World :=
  { xdg_shell_v6_view :=
      { view := { type := .SWAY_VIEW_XDG_SHELL_V6, wlr_xdg_surface_v6 := some exampleSurface,
                  surface := none, swayc := .NULL, natural_width := 0, natural_height := 0,
                  is_fullscreen := false },
        commit := ⟨false⟩, new_popup := ⟨false⟩, request_fullscreen := ⟨false⟩,
        map := ⟨true⟩, unmap := ⟨true⟩, destroy := ⟨true⟩ },
    view_addr := 1,
    popups := fun _ => none,
    calls := [] }

/-- The adapter of `exampleCreated` once mapped into `exampleContainer`. -/
def exampleMapped : World :=
  { exampleCreated with
    xdg_shell_v6_view :=
      { view := { type := .SWAY_VIEW_XDG_SHELL_V6, wlr_xdg_surface_v6 := some exampleSurface,
                  surface := some ⟨800, 600⟩, swayc := exampleContainer,
                  natural_width := 800, natural_height := 600, is_fullscreen := false },
        commit := ⟨true⟩, new_popup := ⟨true⟩, request_fullscreen := ⟨true⟩,
        map := ⟨true⟩, unmap := ⟨true⟩, destroy := ⟨true⟩ } }

/-- The memory reached by announcing `exampleSurface` and delivering `map`:
the Mapped state of the adapter, as the code itself produces it. -/
def reachedMapped : Option World :=
  match handle_xdg_shell_v6_surface (some 1) exampleSurface with
  | some (.created w) => deliver w (.map exampleContainer)
  | _ => none

/-- The events after the first `map`: one `unmap` and one `map` per further placement. -/
def remaps : List container_ptr → List Event
  | [] => []
  | p :: ps => .unmap :: .map p :: remaps ps

/-- The subscription sets expected after each event of `n` unmap-then-map cycles. -/
def remapSnapshots : Nat → List (List view_listener)
  | 0 => []
  | n + 1 =>
    [.destroy, .map, .unmap]
      :: [.destroy, .map, .unmap, .commit, .new_popup, .request_fullscreen]
      :: remapSnapshots n

/-- The adapter holds the handle `xs`, no live surface, and exactly its
destroy, map and unmap subscriptions (the states Created and Unmapped). -/
def Unmapped (xs : wlr_xdg_surface_v6) (w : World) : Prop :=
  w.xdg_shell_v6_view.view.wlr_xdg_surface_v6 = some xs
  ∧ w.xdg_shell_v6_view.view.surface = none
  ∧ w.xdg_shell_v6_view.destroy.linked = true
  ∧ w.xdg_shell_v6_view.map.linked = true
  ∧ w.xdg_shell_v6_view.unmap.linked = true
  ∧ w.xdg_shell_v6_view.commit.linked = false
  ∧ w.xdg_shell_v6_view.new_popup.linked = false
  ∧ w.xdg_shell_v6_view.request_fullscreen.linked = false

/-- The adapter holds the handle `xs`, a live surface, and all six subscriptions. -/
def Mapped (xs : wlr_xdg_surface_v6) (w : World) : Prop :=
  w.xdg_shell_v6_view.view.wlr_xdg_surface_v6 = some xs
  ∧ w.xdg_shell_v6_view.view.surface ≠ none
  ∧ w.xdg_shell_v6_view.destroy.linked = true
  ∧ w.xdg_shell_v6_view.map.linked = true
  ∧ w.xdg_shell_v6_view.unmap.linked = true
  ∧ w.xdg_shell_v6_view.commit.linked = true
  ∧ w.xdg_shell_v6_view.new_popup.linked = true
  ∧ w.xdg_shell_v6_view.request_fullscreen.linked = true

instance (xs : wlr_xdg_surface_v6) (w : World) : Decidable (Unmapped xs w) := by
  unfold Unmapped; infer_instance

instance (xs : wlr_xdg_surface_v6) (w : World) : Decidable (Mapped xs w) := by
  unfold Mapped; infer_instance


/-- The popup adapter that `popup_create` leaves at its address: bound to
`popup_impl` and to the root View, holding its surface, both listeners linked. -/
def createdPopup (view : Option Nat) (wlr_popup : wlr_xdg_popup_v6) : sway_xdg_popup_v6 :=
  { child_impl := some .popup_impl, child_view := view,
    wlr_xdg_surface_v6 := some wlr_popup.base, new_popup := ⟨true⟩, destroy := ⟨true⟩ }

/-- A View of another protocol variant (Xwayland) whose handle word, read as
an xdg_shell_v6 surface, shows a toplevel that declares a parent. -/
def foreignView : sway_view :=
  { type := .SWAY_VIEW_XWAYLAND,
    wlr_xdg_surface_v6 := some { exampleSurface with
      toplevel := some { exampleToplevel with parent := some 3 } },
    surface := some ⟨800, 600⟩, swayc := exampleContainer,
    natural_width := 800, natural_height := 600, is_fullscreen := false }


/-! ## Theorems -/

/-- C4: for a view of this adapter's variant whose surface has a toplevel,
`wants_floating` returns, and returns true exactly when the size is fixed
(minimum width and height non-zero and equal to the maximum ones) or the
toplevel declares a parent; the three sample states of the spec give true,
true and false. -/
theorem wants_floating_iff (view : sway_view) (s : wlr_xdg_surface_v6)
    (t : wlr_xdg_toplevel_v6) (_hv : view.type = .SWAY_VIEW_XDG_SHELL_V6)
    (hs : view.wlr_xdg_surface_v6 = some s) (ht : s.toplevel = some t) :
    (∃ b, wants_floating view = some b ∧
      (b = true ↔
        ((t.current.min_width ≠ 0 ∧ t.current.min_height ≠ 0
            ∧ t.current.min_width = t.current.max_width
            ∧ t.current.min_height = t.current.max_height)
          ∨ t.parent ≠ none)))
    ∧ (t.current = ⟨300, 200, 300, 200⟩ → t.parent = none → wants_floating view = some true)
    ∧ (t.current = ⟨0, 0, 0, 0⟩ → t.parent ≠ none → wants_floating view = some true)
    ∧ (t.current = ⟨100, 100, 4000, 4000⟩ → t.parent = none →
        wants_floating view = some false) := by
  have hw : wants_floating view = some
      ((t.current.min_width != 0 && t.current.min_height != 0
          && t.current.min_width == t.current.max_width
          && t.current.min_height == t.current.max_height)
        || t.parent.isSome) := by
    simp [wants_floating, hs, ht]
  refine ⟨⟨_, hw, ?_⟩, ?_, ?_, ?_⟩
  · cases hp : t.parent <;> simp [and_assoc]
  · intro hc hp
    rw [hw, hc, hp]; rfl
  · intro hc hp
    rw [hw, hc]
    cases hq : t.parent with
    | none => exact absurd hq hp
    | some _ => rfl
  · intro hc hp
    rw [hw, hc, hp]; rfl

/-- A fixed-size toplevel (300x200) without parent wants to float (C4 at a concrete view). -/
theorem wants_floating_iff_witness :
    (∃ b, wants_floating
        { exampleCreated.xdg_shell_v6_view.view with
          wlr_xdg_surface_v6 := some { exampleSurface with
            toplevel := some { exampleToplevel with current := ⟨300, 200, 300, 200⟩ } } }
        = some b ∧ (b = true ↔
          (((300 : Nat) ≠ 0 ∧ (200 : Nat) ≠ 0 ∧ (300 : Nat) = 300 ∧ (200 : Nat) = 200)
            ∨ (none : Option Nat) ≠ none)))
    ∧ wants_floating
        { exampleCreated.xdg_shell_v6_view.view with
          wlr_xdg_surface_v6 := some { exampleSurface with
            toplevel := some { exampleToplevel with current := ⟨300, 200, 300, 200⟩ } } }
        = some true :=
  have h := wants_floating_iff
    { exampleCreated.xdg_shell_v6_view.view with
      wlr_xdg_surface_v6 := some { exampleSurface with
        toplevel := some { exampleToplevel with current := ⟨300, 200, 300, 200⟩ } } }
    { exampleSurface with
      toplevel := some { exampleToplevel with current := ⟨300, 200, 300, 200⟩ } }
    { exampleToplevel with current := ⟨300, 200, 300, 200⟩ } rfl rfl rfl
  ⟨h.1, h.2.1 rfl rfl⟩

/-- C5: with the surface handle and its toplevel present and a tree position
given by `view_map`, `handle_map` returns; the View's natural size is the
buffer size when the advertised geometry is zero in both dimensions and the
advertised geometry otherwise; and the first call it makes is `view_map`, on a
View that already carries that natural size. -/
theorem handle_map_natural_size (w : World) (xdg_surface : wlr_xdg_surface_v6)
    (t : wlr_xdg_toplevel_v6) (ty : sway_container_type) (n : Nat) (parent : container_ptr)
    (gw gh bw bh : Int)
    (hs : w.xdg_shell_v6_view.view.wlr_xdg_surface_v6 = some xdg_surface)
    (ht : xdg_surface.toplevel = some t)
    (hgw : xdg_surface.geometry.width = gw) (hgh : xdg_surface.geometry.height = gh)
    (hbw : xdg_surface.surface.current_width = bw)
    (hbh : xdg_surface.surface.current_height = bh) :
    ∃ w', handle_map w (.ptr ty n parent) = some w'
      ∧ (w'.xdg_shell_v6_view.view.natural_width, w'.xdg_shell_v6_view.view.natural_height)
          = (if gw = 0 ∧ gh = 0 then (bw, bh) else (gw, gh))
      ∧ ∃ v rest, w'.calls = w.calls ++ Call.view_map v xdg_surface.surface :: rest
          ∧ (v.natural_width, v.natural_height)
              = (if gw = 0 ∧ gh = 0 then (bw, bh) else (gw, gh)) := by
  subst hgw hgh hbw hbh
  by_cases hfs : t.client_pending_fullscreen = true <;>
  by_cases hz : xdg_surface.geometry.width = 0 ∧ xdg_surface.geometry.height = 0 <;>
  simp [handle_map, hs, ht, hfs, hz, view_map, view_set_fullscreen, view_signal_add,
    World.call, World.setView, sway_xdg_shell_v6_view.setListener]

/-- Geometry (0,0) with an 800x600 buffer maps to natural size (800,600) (C5 on `exampleCreated`). -/
theorem handle_map_natural_size_witness :
    ∃ w', handle_map exampleCreated exampleContainer = some w'
      ∧ (w'.xdg_shell_v6_view.view.natural_width, w'.xdg_shell_v6_view.view.natural_height)
          = (if (0 : Int) = 0 ∧ (0 : Int) = 0 then ((800 : Int), (600 : Int)) else (0, 0))
      ∧ ∃ v rest, w'.calls
            = exampleCreated.calls ++ Call.view_map v exampleSurface.surface :: rest
          ∧ (v.natural_width, v.natural_height)
              = (if (0 : Int) = 0 ∧ (0 : Int) = 0 then ((800 : Int), (600 : Int)) else (0, 0)) :=
  handle_map_natural_size exampleCreated exampleSurface exampleToplevel .C_VIEW 1
    (.ptr .C_WORKSPACE 0 (.ptr .C_OUTPUT 0 (.ptr .C_ROOT 0 .NULL))) 0 0 800 600
    rfl rfl rfl rfl rfl rfl

/-- C6: on a content-commit to an adapter holding its surface handle, a View
without tree position makes `handle_commit` return with nothing called;
otherwise the calls made are, in order, `transaction_notify_view_ready` with
the surface's configure serial (once when the container's instruction list is
non-empty, not at all when it is empty), then one `view_update_title` and one
`view_damage_from`. -/
theorem handle_commit_calls (w : World) (s : wlr_xdg_surface_v6)
    (hs : w.xdg_shell_v6_view.view.wlr_xdg_surface_v6 = some s) :
    (w.xdg_shell_v6_view.view.swayc = .NULL → handle_commit w = some w)
    ∧ (∀ ty n parent, w.xdg_shell_v6_view.view.swayc = .ptr ty n parent →
        handle_commit w = some
          { w with calls := w.calls
              ++ (if n ≠ 0 then [Call.transaction_notify_view_ready s.configure_serial] else [])
              ++ [Call.view_update_title false, Call.view_damage_from] }) := by
  constructor
  · intro h
    simp [handle_commit, h]
  · intro ty n parent h
    by_cases hn : n = 0 <;> simp [handle_commit, h, hs, hn, World.call]

/-- A commit on `exampleMapped` (one pending instruction, serial 7) notifies once (C6 there). -/
theorem handle_commit_calls_witness :
    exampleMapped.xdg_shell_v6_view.view.swayc
        = .ptr .C_VIEW 1 (.ptr .C_WORKSPACE 0 (.ptr .C_OUTPUT 0 (.ptr .C_ROOT 0 .NULL)))
    ∧ handle_commit exampleMapped = some
        { exampleMapped with calls := exampleMapped.calls
            ++ (if 1 ≠ 0 then
                  [Call.transaction_notify_view_ready exampleSurface.configure_serial]
                else [])
            ++ [Call.view_update_title false, Call.view_damage_from] } :=
  ⟨rfl, (handle_commit_calls exampleMapped exampleSurface rfl).2 _ _ _ rfl⟩

/-- C7: on a fullscreen request to an adapter holding its surface handle,
`handle_request_fullscreen` returns.  When the surface's role is toplevel and
the surface is mapped, the View's fullscreen flag becomes the requested value
and the calls made are `view_set_fullscreen` with that value followed by one
`arrange_and_commit` on the owning output; in every other case (in particular
before the surface is mapped) nothing changes and nothing is called. -/
theorem handle_request_fullscreen_gate (w : World) (s : wlr_xdg_surface_v6)
    (e : wlr_xdg_toplevel_v6_set_fullscreen_event)
    (hs : w.xdg_shell_v6_view.view.wlr_xdg_surface_v6 = some s) :
    (s.role = .WLR_XDG_SURFACE_V6_ROLE_TOPLEVEL ∧ s.mapped = true →
      ∃ w', handle_request_fullscreen w e = some w'
        ∧ w'.xdg_shell_v6_view.view
            = { w.xdg_shell_v6_view.view with is_fullscreen := e.fullscreen }
        ∧ w'.calls = w.calls ++
            [Call.view_set_fullscreen e.fullscreen,
             Call.arrange_and_commit
               (container_parent w.xdg_shell_v6_view.view.swayc .C_OUTPUT)])
    ∧ (¬ (s.role = .WLR_XDG_SURFACE_V6_ROLE_TOPLEVEL ∧ s.mapped = true) →
        handle_request_fullscreen w e = some w) := by
  constructor
  · rintro ⟨hr, hm⟩
    simp [handle_request_fullscreen, hs, hr, hm, sway_assert, view_set_fullscreen,
      World.call, World.setView]
  · intro h
    by_cases hr : s.role = .WLR_XDG_SURFACE_V6_ROLE_TOPLEVEL
    · have hm : s.mapped = false := by
        cases hmm : s.mapped
        · rfl
        · exact absurd ⟨hr, hmm⟩ h
      simp [handle_request_fullscreen, hs, hr, hm, sway_assert]
    · simp [handle_request_fullscreen, hs, hr, sway_assert]

/-- A fullscreen request on the mapped toplevel `exampleMapped` is honoured (C7 there). -/
theorem handle_request_fullscreen_gate_witness :
    (exampleSurface.role = .WLR_XDG_SURFACE_V6_ROLE_TOPLEVEL ∧ exampleSurface.mapped = true)
    ∧ ∃ w', handle_request_fullscreen exampleMapped ⟨true⟩ = some w'
        ∧ w'.xdg_shell_v6_view.view
            = { exampleMapped.xdg_shell_v6_view.view with is_fullscreen := true }
        ∧ w'.calls = exampleMapped.calls ++
            [Call.view_set_fullscreen true,
             Call.arrange_and_commit
               (container_parent exampleMapped.xdg_shell_v6_view.view.swayc .C_OUTPUT)] :=
  ⟨⟨rfl, rfl⟩,
   (handle_request_fullscreen_gate exampleMapped exampleSurface ⟨true⟩ rfl).1 ⟨rfl, rfl⟩⟩
/-- C9: when the View holds no live surface, `handle_unmap` returns with the
memory unchanged (no `view_unmap`, same subscriptions).  When it holds one
(and the three mapped-only listeners are linked, as `handle_map` leaves them),
`handle_unmap` returns having called `view_unmap` and then removed exactly the
commit, new-popup and fullscreen-request links, with the destroy, map and unmap
listeners as they were. -/
theorem handle_unmap_guard (w : World) :
    (w.xdg_shell_v6_view.view.surface = none → handle_unmap w = some w)
    ∧ (w.xdg_shell_v6_view.view.surface ≠ none →
        w.xdg_shell_v6_view.commit.linked = true →
        w.xdg_shell_v6_view.new_popup.linked = true →
        w.xdg_shell_v6_view.request_fullscreen.linked = true →
        ∃ w', handle_unmap w = some w'
          ∧ w'.calls = w.calls ++
              [Call.view_unmap, Call.wl_list_remove (.view .commit),
               Call.wl_list_remove (.view .new_popup),
               Call.wl_list_remove (.view .request_fullscreen)]
          ∧ w'.xdg_shell_v6_view.commit.linked = false
          ∧ w'.xdg_shell_v6_view.new_popup.linked = false
          ∧ w'.xdg_shell_v6_view.request_fullscreen.linked = false
          ∧ w'.xdg_shell_v6_view.destroy = w.xdg_shell_v6_view.destroy
          ∧ w'.xdg_shell_v6_view.map = w.xdg_shell_v6_view.map
          ∧ w'.xdg_shell_v6_view.unmap = w.xdg_shell_v6_view.unmap) := by
  constructor
  · intro h
    simp [handle_unmap, h, sway_assert]
  · intro h hc hn hr
    have hsome : w.xdg_shell_v6_view.view.surface.isSome = true :=
      Option.isSome_iff_ne_none.mpr h
    simp [handle_unmap, hsome, sway_assert, view_unmap, view_list_remove, World.call,
      World.setView, sway_xdg_shell_v6_view.listener, sway_xdg_shell_v6_view.setListener,
      hc, hn, hr]

/-- An unmap before any map leaves `exampleCreated` untouched; an unmap of
`exampleMapped` releases the three mapped-only subscriptions (C9 on both). -/
theorem handle_unmap_guard_witness :
    handle_unmap exampleCreated = some exampleCreated
    ∧ ∃ w', handle_unmap exampleMapped = some w'
          ∧ w'.calls = exampleMapped.calls ++
              [Call.view_unmap, Call.wl_list_remove (.view .commit),
               Call.wl_list_remove (.view .new_popup),
               Call.wl_list_remove (.view .request_fullscreen)]
          ∧ w'.xdg_shell_v6_view.commit.linked = false
          ∧ w'.xdg_shell_v6_view.new_popup.linked = false
          ∧ w'.xdg_shell_v6_view.request_fullscreen.linked = false
          ∧ w'.xdg_shell_v6_view.destroy = exampleMapped.xdg_shell_v6_view.destroy
          ∧ w'.xdg_shell_v6_view.map = exampleMapped.xdg_shell_v6_view.map
          ∧ w'.xdg_shell_v6_view.unmap = exampleMapped.xdg_shell_v6_view.unmap :=
  ⟨(handle_unmap_guard exampleCreated).1 rfl,
   (handle_unmap_guard exampleMapped).2 (by decide) rfl rfl rfl⟩

/-- C10: with the surface handle and its toplevel present and a tree position
given by `view_map`, `handle_map` returns and the calls it makes are, in this
order: `view_map` with the resolved surface; then, when the toplevel asks to
start fullscreen, `view_set_fullscreen true` and one `arrange_and_commit` on
the owning workspace, and otherwise only one `arrange_and_commit` on the parent
of the View's container, the fullscreen flag being left as it was; and last the
three `wl_signal_add` of the commit, new-popup and fullscreen-request
listeners, which are linked on return. -/
theorem handle_map_order (w : World) (xdg_surface : wlr_xdg_surface_v6)
    (t : wlr_xdg_toplevel_v6) (ty : sway_container_type) (n : Nat) (parent : container_ptr)
    (hs : w.xdg_shell_v6_view.view.wlr_xdg_surface_v6 = some xdg_surface)
    (ht : xdg_surface.toplevel = some t) :
    ∃ w' v, handle_map w (.ptr ty n parent) = some w'
      ∧ w'.calls = w.calls
          ++ [Call.view_map v xdg_surface.surface]
          ++ (if t.client_pending_fullscreen then
                [Call.view_set_fullscreen true,
                 Call.arrange_and_commit (container_parent (.ptr ty n parent) .C_WORKSPACE)]
              else [Call.arrange_and_commit parent])
          ++ [Call.wl_signal_add .surface_commit (.view .commit),
              Call.wl_signal_add .xdg_surface_new_popup (.view .new_popup),
              Call.wl_signal_add .toplevel_request_fullscreen (.view .request_fullscreen)]
      ∧ w'.xdg_shell_v6_view.view.is_fullscreen
          = (if t.client_pending_fullscreen then true
             else w.xdg_shell_v6_view.view.is_fullscreen)
      ∧ w'.xdg_shell_v6_view.view.surface = some xdg_surface.surface
      ∧ w'.xdg_shell_v6_view.view.swayc = .ptr ty n parent
      ∧ w'.xdg_shell_v6_view.commit.linked = true
      ∧ w'.xdg_shell_v6_view.new_popup.linked = true
      ∧ w'.xdg_shell_v6_view.request_fullscreen.linked = true := by
  by_cases hfs : t.client_pending_fullscreen = true <;>
  by_cases hz : xdg_surface.geometry.width = 0 ∧ xdg_surface.geometry.height = 0 <;>
  simp [handle_map, hs, ht, hfs, hz, view_map, view_set_fullscreen, view_signal_add,
    World.call, World.setView, sway_xdg_shell_v6_view.setListener]

/-- Mapping `exampleCreated` (no fullscreen wish) arranges the parent of its container (C10 there). -/
theorem handle_map_order_witness :
    ∃ w' v, handle_map exampleCreated exampleContainer = some w'
      ∧ w'.calls = exampleCreated.calls
          ++ [Call.view_map v exampleSurface.surface]
          ++ (if exampleToplevel.client_pending_fullscreen then
                [Call.view_set_fullscreen true,
                 Call.arrange_and_commit (container_parent exampleContainer .C_WORKSPACE)]
              else [Call.arrange_and_commit
                      (.ptr .C_WORKSPACE 0 (.ptr .C_OUTPUT 0 (.ptr .C_ROOT 0 .NULL)))])
          ++ [Call.wl_signal_add .surface_commit (.view .commit),
              Call.wl_signal_add .xdg_surface_new_popup (.view .new_popup),
              Call.wl_signal_add .toplevel_request_fullscreen (.view .request_fullscreen)]
      ∧ w'.xdg_shell_v6_view.view.is_fullscreen
          = (if exampleToplevel.client_pending_fullscreen then true
             else exampleCreated.xdg_shell_v6_view.view.is_fullscreen)
      ∧ w'.xdg_shell_v6_view.view.surface = some exampleSurface.surface
      ∧ w'.xdg_shell_v6_view.view.swayc = exampleContainer
      ∧ w'.xdg_shell_v6_view.commit.linked = true
      ∧ w'.xdg_shell_v6_view.new_popup.linked = true
      ∧ w'.xdg_shell_v6_view.request_fullscreen.linked = true :=
  handle_map_order exampleCreated exampleSurface exampleToplevel .C_VIEW 1
    (.ptr .C_WORKSPACE 0 (.ptr .C_OUTPUT 0 (.ptr .C_ROOT 0 .NULL))) rfl rfl

/-- C1, amended: with its destroy, map and unmap listeners linked (as they are
in Created, Mapped and Unmapped), `handle_destroy` returns; it removes exactly
those three links, clears the View's surface-handle reference and then calls
`view_destroy`, leaving the commit, new-popup and fullscreen-request listeners
as they were.  Hence no subscription is active afterwards when only destroy,
map and unmap were active before (Created, Unmapped). -/
theorem handle_destroy_releases (w : World)
    (hd : w.xdg_shell_v6_view.destroy.linked = true)
    (hm : w.xdg_shell_v6_view.map.linked = true)
    (hu : w.xdg_shell_v6_view.unmap.linked = true) :
    ∃ w', handle_destroy w = some w'
      ∧ w'.xdg_shell_v6_view.view.wlr_xdg_surface_v6 = none
      ∧ w'.calls = w.calls ++
          [Call.wl_list_remove (.view .destroy), Call.wl_list_remove (.view .map),
           Call.wl_list_remove (.view .unmap),
           Call.view_destroy
             { w.xdg_shell_v6_view.view with wlr_xdg_surface_v6 := none }]
      ∧ w'.xdg_shell_v6_view.destroy.linked = false
      ∧ w'.xdg_shell_v6_view.map.linked = false
      ∧ w'.xdg_shell_v6_view.unmap.linked = false
      ∧ w'.xdg_shell_v6_view.commit = w.xdg_shell_v6_view.commit
      ∧ w'.xdg_shell_v6_view.new_popup = w.xdg_shell_v6_view.new_popup
      ∧ w'.xdg_shell_v6_view.request_fullscreen = w.xdg_shell_v6_view.request_fullscreen
      ∧ (subscriptions w.xdg_shell_v6_view = [.destroy, .map, .unmap] →
          subscriptions w'.xdg_shell_v6_view = []) := by
  refine ⟨_, by
    simp [handle_destroy, view_list_remove, sway_xdg_shell_v6_view.listener,
      sway_xdg_shell_v6_view.setListener, World.call, hd, hm, hu]; rfl, ?_⟩
  refine ⟨rfl, ?_, rfl, rfl, rfl, rfl, rfl, rfl, ?_⟩
  · simp [view_destroy, World.call, World.setView]
  · intro h
    rcases hc : w.xdg_shell_v6_view.commit with ⟨_ | _⟩ <;>
    rcases hn : w.xdg_shell_v6_view.new_popup with ⟨_ | _⟩ <;>
    rcases hr : w.xdg_shell_v6_view.request_fullscreen with ⟨_ | _⟩ <;>
    simp [subscriptions, sway_xdg_shell_v6_view.listener, hd, hm, hu, hc, hn, hr,
      view_destroy, World.call, World.setView] at h ⊢

/-- Destroying the never-mapped adapter `exampleCreated` leaves no subscription (amended C1 there). -/
theorem handle_destroy_releases_witness :
    subscriptions exampleCreated.xdg_shell_v6_view = [.destroy, .map, .unmap]
    ∧ ∃ w', handle_destroy exampleCreated = some w'
        ∧ w'.xdg_shell_v6_view.view.wlr_xdg_surface_v6 = none
        ∧ subscriptions w'.xdg_shell_v6_view = [] :=
  ⟨rfl,
   match handle_destroy_releases exampleCreated rfl rfl rfl with
   | ⟨w', h, hnone, _, _, _, _, _, _, _, hsub⟩ => ⟨w', h, hnone, hsub rfl⟩⟩

/-- C1 as stated fails in the Mapped state: after announcing a toplevel and
mapping it, `handle_destroy` returns with the surface-handle reference cleared
but with the commit, new-popup and fullscreen-request subscriptions still
active. -/
theorem handle_destroy_from_mapped_keeps_subscriptions :
    (reachedMapped.map fun w => subscriptions w.xdg_shell_v6_view)
        = some [.destroy, .map, .unmap, .commit, .new_popup, .request_fullscreen]
    ∧ ((reachedMapped.bind handle_destroy).map fun w =>
          (subscriptions w.xdg_shell_v6_view, w.xdg_shell_v6_view.view.wlr_xdg_surface_v6))
        = some ([.commit, .new_popup, .request_fullscreen], none) := by
  constructor <;> rfl

/-- Announcing a non-popup surface with a toplevel creates an adapter in the Created state. -/
theorem announce_created (addr : Nat) (xs : wlr_xdg_surface_v6) (t : wlr_xdg_toplevel_v6)
    (hrole : xs.role ≠ .WLR_XDG_SURFACE_V6_ROLE_POPUP) (ht : xs.toplevel = some t) :
    ∃ w0, handle_xdg_shell_v6_surface (some addr) xs = some (.created w0)
      ∧ Unmapped xs w0
      ∧ subscriptions w0.xdg_shell_v6_view = [.destroy, .map, .unmap] := by
  refine ⟨_, by simp [handle_xdg_shell_v6_surface, hrole, ht]; rfl, ?_, ?_⟩
  · simp [Unmapped, view_signal_add, view_init, World.call, World.setView,
      sway_xdg_shell_v6_view.setListener]
  · rfl

/-- A `map` event on an adapter without live surface leads to the Mapped state. -/
theorem deliver_map_mapped (xs : wlr_xdg_surface_v6) (t : wlr_xdg_toplevel_v6) (w : World)
    (p : container_ptr) (ht : xs.toplevel = some t) (hp : p ≠ .NULL) (h : Unmapped xs w) :
    ∃ w', deliver w (.map p) = some w' ∧ Mapped xs w'
      ∧ subscriptions w'.xdg_shell_v6_view
          = [.destroy, .map, .unmap, .commit, .new_popup, .request_fullscreen] := by
  obtain ⟨hs, _, hd, hm, hu, _, _, _⟩ := h
  cases p with
  | NULL => exact absurd rfl hp
  | ptr ty n parent =>
    by_cases hfs : t.client_pending_fullscreen = true <;>
    by_cases hz : xs.geometry.width = 0 ∧ xs.geometry.height = 0 <;>
    simp [deliver, Event.listener, sway_xdg_shell_v6_view.listener, handle_map, hs, ht, hfs,
      hz, hd, hm, hu, view_map, view_set_fullscreen, view_signal_add, World.call,
      World.setView, sway_xdg_shell_v6_view.setListener, Mapped, subscriptions]

/-- An `unmap` event on a Mapped adapter leads to the Unmapped state. -/
theorem deliver_unmap_unmapped (xs : wlr_xdg_surface_v6) (w : World) (h : Mapped xs w) :
    ∃ w', deliver w .unmap = some w' ∧ Unmapped xs w'
      ∧ subscriptions w'.xdg_shell_v6_view = [.destroy, .map, .unmap] := by
  obtain ⟨hs, hsurf, hd, hm, hu, hc, hn, hr⟩ := h
  have hsome : w.xdg_shell_v6_view.view.surface.isSome = true :=
    Option.isSome_iff_ne_none.mpr hsurf
  simp [deliver, Event.listener, sway_xdg_shell_v6_view.listener, handle_unmap, hsome,
    sway_assert, view_unmap, view_list_remove, World.call, World.setView,
    sway_xdg_shell_v6_view.setListener, hs, hd, hm, hu, hc, hn, hr, Unmapped, subscriptions]

/-- A `destroy` event on an Unmapped adapter leaves no subscription. -/
theorem deliver_destroy_unmapped (xs : wlr_xdg_surface_v6) (w : World) (h : Unmapped xs w) :
    ∃ w', deliver w .destroy = some w' ∧ subscriptions w'.xdg_shell_v6_view = [] := by
  obtain ⟨hs, _, hd, hm, hu, hc, hn, hr⟩ := h
  simp [deliver, Event.listener, sway_xdg_shell_v6_view.listener, handle_destroy,
    view_destroy, view_list_remove, World.call, World.setView,
    sway_xdg_shell_v6_view.setListener, hs, hd, hm, hu, hc, hn, hr, subscriptions]

/-- From the Mapped state, any number of unmap-then-map cycles followed by
`unmap` and `destroy` shows the expected subscription sets. -/
theorem lifetime_remaps (xs : wlr_xdg_surface_v6) (t : wlr_xdg_toplevel_v6)
    (ht : xs.toplevel = some t) (ps : List container_ptr) :
    ∀ w, (∀ p ∈ ps, p ≠ .NULL) → Mapped xs w →
      ∃ wEnd, lifetime w (remaps ps ++ [.unmap, .destroy])
        = some (remapSnapshots ps.length ++ [[.destroy, .map, .unmap], []], wEnd) := by
  induction ps with
  | nil =>
    intro w _ h
    obtain ⟨w1, h1, hu1, hs1⟩ := deliver_unmap_unmapped xs w h
    obtain ⟨w2, h2, hs2⟩ := deliver_destroy_unmapped xs w1 hu1
    exact ⟨w2, by simp [remaps, remapSnapshots, lifetime, h1, h2, hs1, hs2]⟩
  | cons p ps ih =>
    intro w hps h
    obtain ⟨w1, h1, hu1, hs1⟩ := deliver_unmap_unmapped xs w h
    obtain ⟨w2, h2, hm2, hs2⟩ :=
      deliver_map_mapped xs t w1 p ht (hps p (List.mem_cons_self _ _)) hu1
    obtain ⟨wEnd, h3⟩ := ih w2 (fun q hq => hps q (List.mem_cons_of_mem _ hq)) hm2
    exact ⟨wEnd, by simp [remaps, remapSnapshots, lifetime, h1, h2, h3, hs1, hs2]⟩

/-- C3: a surface announced as a toplevel gets an adapter whose subscriptions
are destroy, map and unmap; delivering map, then any number of unmap-then-map
cycles, then unmap and destroy (each map giving the View a tree position)
runs to the end, and the subscription set seen after each event is all six
after every map, destroy/map/unmap after every unmap, and empty after destroy. -/
theorem lifetime_subscriptions (addr : Nat) (xs : wlr_xdg_surface_v6)
    (t : wlr_xdg_toplevel_v6) (p0 : container_ptr) (ps : List container_ptr)
    (hrole : xs.role ≠ .WLR_XDG_SURFACE_V6_ROLE_POPUP) (ht : xs.toplevel = some t)
    (hp0 : p0 ≠ .NULL) (hps : ∀ p ∈ ps, p ≠ .NULL) :
    ∃ w0 wEnd, handle_xdg_shell_v6_surface (some addr) xs = some (.created w0)
      ∧ subscriptions w0.xdg_shell_v6_view = [.destroy, .map, .unmap]
      ∧ lifetime w0 (Event.map p0 :: remaps ps ++ [.unmap, .destroy])
          = some ([.destroy, .map, .unmap, .commit, .new_popup, .request_fullscreen]
                    :: remapSnapshots ps.length ++ [[.destroy, .map, .unmap], []], wEnd) := by
  obtain ⟨w0, h0, hu0, hs0⟩ := announce_created addr xs t hrole ht
  obtain ⟨w1, h1, hm1, hs1⟩ := deliver_map_mapped xs t w0 p0 ht hp0 hu0
  obtain ⟨wEnd, h2⟩ := lifetime_remaps xs t ht ps w1 hps hm1
  exact ⟨w0, wEnd, h0, hs0, by simp [lifetime, h1, h2, hs1]⟩

/-- The lifetime map, unmap, map, unmap, destroy of `exampleSurface` (C3 with one extra cycle). -/
theorem lifetime_subscriptions_witness :
    ∃ w0 wEnd, handle_xdg_shell_v6_surface (some 1) exampleSurface = some (.created w0)
      ∧ subscriptions w0.xdg_shell_v6_view = [.destroy, .map, .unmap]
      ∧ lifetime w0 [.map exampleContainer, .unmap, .map exampleContainer, .unmap, .destroy]
          = some ([[.destroy, .map, .unmap, .commit, .new_popup, .request_fullscreen],
                   [.destroy, .map, .unmap],
                   [.destroy, .map, .unmap, .commit, .new_popup, .request_fullscreen],
                   [.destroy, .map, .unmap], []], wEnd) :=
  lifetime_subscriptions 1 exampleSurface exampleToplevel exampleContainer [exampleContainer]
    (by decide) rfl (by decide) (by decide)

/-- With fresh memory at `a` and an output above the root View, `popup_create`
returns the new adapter, fully subscribed, and touches no other popup. -/
theorem popup_create_spec (w : World) (a : Nat) (wlr_popup : wlr_xdg_popup_v6)
    (hout : container_parent w.xdg_shell_v6_view.view.swayc .C_OUTPUT ≠ .NULL) :
    ∃ w', popup_create w (some a) wlr_popup (some w.view_addr) = some (some a, w')
      ∧ w'.popups a = some (createdPopup (some w.view_addr) wlr_popup)
      ∧ (∀ x, x ≠ a → w'.popups x = w.popups x)
      ∧ w'.xdg_shell_v6_view = w.xdg_shell_v6_view
      ∧ w'.view_addr = w.view_addr := by
  cases hc : container_parent w.xdg_shell_v6_view.view.swayc .C_OUTPUT with
  | NULL => exact absurd hc hout
  | ptr ty n par =>
    have h : popup_create w (some a) wlr_popup (some w.view_addr) = some (some a,
        { w with
          popups := Function.update w.popups a
            (some (createdPopup (some w.view_addr) wlr_popup)),
          calls := w.calls ++
            [Call.view_child_init a .popup_impl (some w.view_addr),
             Call.wl_signal_add .xdg_surface_new_popup (.popup a .new_popup),
             Call.wl_signal_add .xdg_surface_destroy (.popup a .destroy),
             Call.wlr_xdg_popup_v6_unconstrain_from_box a (.ptr ty n par)] }) := by
      simp [popup_create, view_child_init, popup_unconstrain, World.setPopup, World.call, hc,
        createdPopup]
    exact ⟨_, h, by simp, fun x hx => by simp [Function.update_noteq hx], rfl, rfl⟩

/-- On a live, fully subscribed popup of this file, `popup_handle_destroy`
removes its two links, frees it, and touches nothing else. -/
theorem popup_handle_destroy_spec (w : World) (a : Nat) (view : Option Nat)
    (wlr_popup : wlr_xdg_popup_v6)
    (ha : w.popups a = some (createdPopup view wlr_popup)) :
    ∃ w', popup_handle_destroy w a = some w'
      ∧ w'.calls = w.calls ++
          [Call.view_child_destroy a, Call.wl_list_remove (.popup a .new_popup),
           Call.wl_list_remove (.popup a .destroy), Call.free_popup a]
      ∧ w'.popups a = none
      ∧ (∀ x, x ≠ a → w'.popups x = w.popups x)
      ∧ w'.xdg_shell_v6_view = w.xdg_shell_v6_view
      ∧ w'.view_addr = w.view_addr := by
  have h : popup_handle_destroy w a = some
      { w with
        popups := Function.update w.popups a none,
        calls := w.calls ++
          [Call.view_child_destroy a, Call.wl_list_remove (.popup a .new_popup),
           Call.wl_list_remove (.popup a .destroy), Call.free_popup a] } := by
    simp [popup_handle_destroy, view_child_destroy, popup_destroy, ha, createdPopup,
      World.call, World.setPopup, sway_assert]
  exact ⟨_, h, rfl, by simp, fun x hx => by simp [Function.update_noteq hx], rfl, rfl⟩

/-- C8: from any memory whose root View has an owning output, create popup A
on the toplevel, B on A and C on B (`calloc` handing out three distinct
blocks).  The three adapters are then live, bound to the same root View, with
both listeners linked.  Delivering `destroyed` to A returns, removes exactly
A's new-popup and destroy links and frees A; every other popup adapter, B and C
included, and the toplevel adapter are unchanged.  B and C are still live and
each is released by its own `destroyed` event. -/
theorem popup_destroy_no_cascade (w : World) (a b c : Nat) (pa pb pc : wlr_xdg_popup_v6)
    (hout : container_parent w.xdg_shell_v6_view.view.swayc .C_OUTPUT ≠ .NULL)
    (hab : a ≠ b) (hac : a ≠ c) (hbc : b ≠ c) :
    ∃ w1 w2 w3 w4 w5 w6,
      handle_new_popup w (some a) pa = some w1
      ∧ popup_handle_new_popup w1 a (some b) pb = some w2
      ∧ popup_handle_new_popup w2 b (some c) pc = some w3
      ∧ w3.popups a = some (createdPopup (some w.view_addr) pa)
      ∧ w3.popups b = some (createdPopup (some w.view_addr) pb)
      ∧ w3.popups c = some (createdPopup (some w.view_addr) pc)
      ∧ popup_handle_destroy w3 a = some w4
      ∧ w4.calls = w3.calls ++
          [Call.view_child_destroy a, Call.wl_list_remove (.popup a .new_popup),
           Call.wl_list_remove (.popup a .destroy), Call.free_popup a]
      ∧ w4.popups a = none
      ∧ (∀ x, x ≠ a → w4.popups x = w3.popups x)
      ∧ w4.popups b = some (createdPopup (some w.view_addr) pb)
      ∧ w4.popups c = some (createdPopup (some w.view_addr) pc)
      ∧ w4.xdg_shell_v6_view = w3.xdg_shell_v6_view
      ∧ popup_handle_destroy w4 b = some w5
      ∧ w5.popups b = none
      ∧ w5.popups c = some (createdPopup (some w.view_addr) pc)
      ∧ popup_handle_destroy w5 c = some w6
      ∧ w6.popups c = none := by
  obtain ⟨w1, h1, ha1, hf1, hv1, hd1⟩ := popup_create_spec w a pa hout
  have hout1 : container_parent w1.xdg_shell_v6_view.view.swayc .C_OUTPUT ≠ .NULL := by
    rw [hv1]; exact hout
  obtain ⟨w2, h2, hb2, hf2, hv2, hd2⟩ := popup_create_spec w1 b pb hout1
  have hout2 : container_parent w2.xdg_shell_v6_view.view.swayc .C_OUTPUT ≠ .NULL := by
    rw [hv2]; exact hout1
  obtain ⟨w3, h3, hc3, hf3, hv3, hd3⟩ := popup_create_spec w2 c pc hout2
  rw [hd1] at hb2
  rw [hd2, hd1] at hc3
  have ha2 : w2.popups a = some (createdPopup (some w.view_addr) pa) := by
    rw [hf2 a hab, ha1]
  have ha3 : w3.popups a = some (createdPopup (some w.view_addr) pa) := by
    rw [hf3 a hac, ha2]
  have hb3 : w3.popups b = some (createdPopup (some w.view_addr) pb) := by
    rw [hf3 b hbc, hb2]
  obtain ⟨w4, h4, hcalls4, hna4, hf4, hv4, _⟩ := popup_handle_destroy_spec w3 a _ pa ha3
  have hb4 : w4.popups b = some (createdPopup (some w.view_addr) pb) := by
    rw [hf4 b (Ne.symm hab), hb3]
  have hc4 : w4.popups c = some (createdPopup (some w.view_addr) pc) := by
    rw [hf4 c (Ne.symm hac), hc3]
  obtain ⟨w5, h5, _, hnb5, hf5, _, _⟩ := popup_handle_destroy_spec w4 b _ pb hb4
  have hc5 : w5.popups c = some (createdPopup (some w.view_addr) pc) := by
    rw [hf5 c (Ne.symm hbc), hc4]
  obtain ⟨w6, h6, _, hnc6, _, _, _⟩ := popup_handle_destroy_spec w5 c _ pc hc5
  refine ⟨w1, w2, w3, w4, w5, w6, ?_, ?_, ?_, ha3, hb3, hc3, h4, hcalls4, hna4, hf4, hb4, hc4,
    hv4, h5, hnb5, hc5, h6, hnc6⟩
  · simp [handle_new_popup, h1]
  · simp [popup_handle_new_popup, ha1, createdPopup, ← hd1, h2]
  · simp [popup_handle_new_popup, hb2, createdPopup, ← hd1, ← hd2, h3]

/-- Three nested popups on `exampleMapped`, at addresses 10, 11 and 12 (C8 there). -/
theorem popup_destroy_no_cascade_witness :
    ∃ w1 w2 w3 w4 w5 w6,
      handle_new_popup exampleMapped (some 10) ⟨exampleSurface⟩ = some w1
      ∧ popup_handle_new_popup w1 10 (some 11) ⟨exampleSurface⟩ = some w2
      ∧ popup_handle_new_popup w2 11 (some 12) ⟨exampleSurface⟩ = some w3
      ∧ w3.popups 10 = some (createdPopup (some exampleMapped.view_addr) ⟨exampleSurface⟩)
      ∧ w3.popups 11 = some (createdPopup (some exampleMapped.view_addr) ⟨exampleSurface⟩)
      ∧ w3.popups 12 = some (createdPopup (some exampleMapped.view_addr) ⟨exampleSurface⟩)
      ∧ popup_handle_destroy w3 10 = some w4
      ∧ w4.calls = w3.calls ++
          [Call.view_child_destroy 10, Call.wl_list_remove (.popup 10 .new_popup),
           Call.wl_list_remove (.popup 10 .destroy), Call.free_popup 10]
      ∧ w4.popups 10 = none
      ∧ (∀ x, x ≠ 10 → w4.popups x = w3.popups x)
      ∧ w4.popups 11 = some (createdPopup (some exampleMapped.view_addr) ⟨exampleSurface⟩)
      ∧ w4.popups 12 = some (createdPopup (some exampleMapped.view_addr) ⟨exampleSurface⟩)
      ∧ w4.xdg_shell_v6_view = w3.xdg_shell_v6_view
      ∧ popup_handle_destroy w4 11 = some w5
      ∧ w5.popups 11 = none
      ∧ w5.popups 12 = some (createdPopup (some exampleMapped.view_addr) ⟨exampleSurface⟩)
      ∧ popup_handle_destroy w5 12 = some w6
      ∧ w6.popups 12 = none :=
  popup_destroy_no_cascade exampleMapped 10 11 12 ⟨exampleSurface⟩ ⟨exampleSurface⟩
    ⟨exampleSurface⟩ (by decide) (by decide) (by decide) (by decide)

/-- On a View of another variant, the seven queries that call
`xdg_shell_v6_view_from_view` return the neutral result whatever the handle
holds: absent string, serial 0, and no command issued to the surface. -/
theorem guarded_queries_neutral (view : sway_view)
    (hv : view.type ≠ .SWAY_VIEW_XDG_SHELL_V6) :
    xdg_shell_v6_view_from_view view = none
    ∧ (∀ prop, get_string_prop view prop = some none)
    ∧ (∀ serial lx ly width height, configure serial view lx ly width height = some (0, []))
    ∧ (∀ activated, set_activated view activated = some [])
    ∧ (∀ tiled, set_tiled view tiled = some [])
    ∧ (∀ fullscreen, set_fullscreen view fullscreen = some [])
    ∧ for_each_surface view = some []
    ∧ _close view = some [] := by
  have h : xdg_shell_v6_view_from_view view = none := by
    simp [xdg_shell_v6_view_from_view, sway_assert, hv]
  refine ⟨h, ?_, ?_, ?_, ?_, ?_, ?_, ?_⟩ <;> intros <;>
  simp [get_string_prop, configure, set_activated, set_tiled, set_fullscreen,
    for_each_surface, _close, h]

/-- C2, at the failing input: `foreignView` is not of this adapter's variant
and the variant check rejects it; the guarded queries answer neutrally, but
`wants_floating`, which makes no variant check, reads the handle and answers
true (and dereferences `NULL` when the handle word is null) where the claim
requires false. -/
theorem wants_floating_skips_variant_check :
    foreignView.type ≠ .SWAY_VIEW_XDG_SHELL_V6
    ∧ xdg_shell_v6_view_from_view foreignView = none
    ∧ get_string_prop foreignView .VIEW_PROP_TITLE = some none
    ∧ configure 5 foreignView ⟨0⟩ ⟨0⟩ 640 480 = some (0, [])
    ∧ set_activated foreignView true = some []
    ∧ set_tiled foreignView true = some []
    ∧ set_fullscreen foreignView true = some []
    ∧ for_each_surface foreignView = some []
    ∧ _close foreignView = some []
    ∧ wants_floating foreignView = some true
    ∧ wants_floating { foreignView with wlr_xdg_surface_v6 := none } = none := by
  decide

end XdgShellV6
